import Mathlib

/-!
# Verification of the nanobot turn-execution and memory-lifecycle engine

This file gives a shallow embedding, in Lean 4, of the core of
`nanobot/agent/loop.py`, `nanobot/agent/compaction.py`,
`nanobot/agent/context.py` and `nanobot/agent/memory.py`, and proves (or
refutes) the frozen specification claims about them.

Modelling conventions:
* Python dict-shaped chat messages become the `ChatMessage` structure; an
  absent key is `none` (for optional fields) or `[]` (for `tool_calls`).
* The language-model provider is external nondeterminism: it is passed in as
  an oracle function from (call index, message list) to an `LLMResponse`,
  or, for the single summarization call, as an `Except` outcome where
  `.error` models the call raising an exception.
* Tool execution is external (`ToolExecutor` never raises per its contract);
  it is an oracle `String → String → String` from (name, serialized
  arguments) to the textual result.
* Filesystem state visible to `MemoryStore` is explicit: the daily-notes
  file is threaded as an `Option String` (its current content, `none` when
  the file does not exist yet).
* Session persistence (`SessionManager.save`) has no observable effect on
  the in-memory `Session`, so it is not modelled separately.
-/

namespace Nanobot

/-! ## Data model (providers/base: ToolCallRequest, LLMResponse; message dicts) -/

/-- A tool call requested by the model (`ToolCallRequest`): provider-assigned
`id`, tool `name`, and the argument mapping (kept opaque as its JSON
serialization, which is how `loop.py` stores it via `json.dumps`). -/
structure ToolCallRequest where
  id : String
  name : String
  arguments : String
deriving DecidableEq, Repr

/-- One assistant turn returned by the provider (`LLMResponse`): optional
text content, requested tool calls, and opaque provider side channels. -/
structure LLMResponse where
  content : Option String := none
  tool_calls : List ToolCallRequest := []
  reasoning_content : Option String := none
  thinking_blocks : Option String := none
deriving DecidableEq, Repr

/-- A message dict as assembled for the provider API. Absent keys are `none`
(or `[]` for `tool_calls`); `thinking_blocks` is an opaque pass-through blob. -/
structure ChatMessage where
  role : String
  content : Option String := none
  tool_calls : List ToolCallRequest := []
  tool_call_id : Option String := none
  name : Option String := none
  reasoning_content : Option String := none
  thinking_blocks : Option String := none
deriving DecidableEq, Repr

/-- A persisted session message (role and text content), as stored in
`Session.messages`. -/
structure SessionMessage where
  role : String
  content : String
deriving DecidableEq, Repr

/-- Durable conversational state (`Session` from session/manager.py, whose
fields are read and written by `loop.py`): the message list, the compaction
summary, the two compaction counters and the update timestamp. -/
structure Session where
  messages : List SessionMessage
  compaction_summary : Option String := none
  compaction_count : Nat := 0
  memory_flush_compaction_count : Nat := 0
  updated_at : Nat := 0
deriving DecidableEq, Repr

/-! ## Fixed strings and tool-name sets (loop.py, compaction.py) -/

/-- `MEMORY_WRITE_TOOLS` from loop.py. -/
def MEMORY_WRITE_TOOLS : List String :=
  ["remember_core", "append_daily", "organize_memory", "remember"]

/-- `TOOLS_HIDDEN_FROM_LLM` from loop.py: tool names stripped from every
tool catalog sent to the model. -/
def TOOLS_HIDDEN_FROM_LLM : List String :=
  ["memory_search", "web_search", "web_fetch",
   "remember", "remember_core", "append_daily", "organize_memory", "memory_get"]

/-- `EMPTY_CONTENT_FALLBACK_USER` from loop.py (shown to the user when the
model returns empty content). -/
def EMPTY_CONTENT_FALLBACK_USER : String := "模型返回了空内容，请重试或换一种问法。"

/-- `EMPTY_CONTENT_RETRY_PROMPT` from loop.py (sent to the model only). -/
def EMPTY_CONTENT_RETRY_PROMPT : String := "你上轮返回了空内容，请继续完成任务并给出实质性操作或回复。"

/-- `NO_REPLY_TOKEN` from compaction.py. -/
def NO_REPLY_TOKEN : String := "NO_REPLY"

/-! ## Tool catalog filtering (loop.py `_get_llm_tool_definitions`) -/

/-- A tool definition as produced by the registry: OpenAI format, where the
name may sit under `function.name` or at top level (`_tool_name_from_definition`
handles both, treating an empty string as missing, per Python truthiness). -/
structure ToolDefinition where
  functionName : Option String := none
  topName : Option String := none
deriving DecidableEq, Repr

/-- Python truthiness for an optional string: `None` and `""` are falsy. -/
def truthyStr : Option String → Option String
  | some s => if s = "" then none else some s
  | none => none

/-- Python `str.strip()`: drop whitespace from both ends. Implemented by
structural recursion on the character list so that concrete instances
reduce in the kernel. -/
def pyStrip (s : String) : String :=
  ⟨((s.data.dropWhile Char.isWhitespace).reverse.dropWhile Char.isWhitespace).reverse⟩

/-- `_tool_name_from_definition`: prefer `function.name`, fall back to the
top-level `name`; `none` when neither is a truthy string. -/
def tool_name_from_definition (d : ToolDefinition) : Option String :=
  match truthyStr d.functionName with
  | some n => some n
  | none => truthyStr d.topName

/-- `_get_llm_tool_definitions`: keep a definition when its name cannot be
parsed, drop it when its name is in `TOOLS_HIDDEN_FROM_LLM`. -/
def get_llm_tool_definitions (defs : List ToolDefinition) : List ToolDefinition :=
  defs.filter fun d =>
    match tool_name_from_definition d with
    | none => true
    | some n => !TOOLS_HIDDEN_FROM_LLM.contains n

/-! ## Context helpers (context.py) -/

/-- `ContextBuilder.add_tool_result`: append one `tool`-role message carrying
the originating call id, the tool name and the textual result. -/
def add_tool_result (messages : List ChatMessage)
    (tool_call_id tool_name result : String) : List ChatMessage :=
  messages ++ [{ role := "tool", content := some result,
                 tool_call_id := some tool_call_id, name := some tool_name }]

/-- `ContextBuilder.add_assistant_message`: append the assistant turn;
`content` defaults to `""`; side-channel fields are attached only when
truthy, `tool_calls` only when nonempty (an empty list models the absent key). -/
def add_assistant_message (messages : List ChatMessage) (content : Option String)
    (tool_calls : List ToolCallRequest)
    (reasoning_content thinking_blocks : Option String) : List ChatMessage :=
  messages ++ [{ role := "assistant", content := some (content.getD ""),
                 tool_calls := tool_calls,
                 reasoning_content := truthyStr reasoning_content,
                 thinking_blocks := truthyStr thinking_blocks }]

/-! ## Tool-call execution (the per-response tool loop shared by
`_process_message`, `_process_system_message` and `_run_memory_flush_turn`) -/

/-- Execute the requested tool calls in request order, appending one
tool-result message per call via `add_tool_result`, and return the updated
message list together with the executed tool names in order. -/
def exec_tool_calls (execTool : String → String → String) :
    List ChatMessage → List ToolCallRequest → List ChatMessage × List String
  | msgs, [] => (msgs, [])
  | msgs, tc :: rest =>
      let result := execTool tc.name tc.arguments
      let msgs1 := add_tool_result msgs tc.id tc.name result
      let r := exec_tool_calls execTool msgs1 rest
      (r.1, tc.name :: r.2)

/-- The tool-result message produced for one request. -/
def toolResultMessage (execTool : String → String → String)
    (tc : ToolCallRequest) : ChatMessage :=
  { role := "tool", content := some (execTool tc.name tc.arguments),
    tool_call_id := some tc.id, name := some tc.name }

/-! ## Main agent loop (loop.py `_process_message`) -/

/-- The user-visible notice published when the model requests tool calls:
assistant thinking (when nonempty) merged with the invoked tool names. -/
def tool_call_notice (content : Option String) (tcs : List ToolCallRequest) : String :=
  let thinking := pyStrip (content.getD "")
  let toolList := String.intercalate ", " (tcs.map (·.name))
  if thinking = "" then
    "━━ 🛠️ 工具调用 ━━\n\n✓ 已调用工具: " ++ toolList
  else
    "━━ 💭 助手思考 ━━\n\n" ++ thinking ++ "\n\n━━ 🛠️ 工具调用 ━━\n\n✓ 已调用工具: " ++ toolList

/-- Mutable state of the main agent loop: the model message list, the
user-visible messages published so far during the loop, the one-shot
empty-content retry flag, the memory-writing tool names recorded, and how
many model calls have been made. -/
structure TurnLoopState where
  messages : List ChatMessage
  outbound : List String := []
  emptyRetryDone : Bool := false
  memoryToolsCalled : List String := []
  callCount : Nat := 0
deriving DecidableEq, Repr

/-- The agent loop of `_process_message`, fuel = remaining iterations
(starting at `max_iterations`). `chat` is the provider oracle (indexed by
call count so each round trip may answer differently). Returns the final
state and `some final_content` when the loop broke with a candidate reply
(`none` models falling out of the `while` with `final_content` still `None`). -/
def runAgentLoop (chat : Nat → List ChatMessage → LLMResponse)
    (execTool : String → String → String) :
    Nat → TurnLoopState → TurnLoopState × Option String
  | 0, st => (st, none)
  | fuel + 1, st =>
      let r := chat st.callCount st.messages
      let st1 : TurnLoopState := { st with callCount := st.callCount + 1 }
      if r.tool_calls.isEmpty then
        let content := pyStrip (r.content.getD "")
        if content = "" then
          if st1.emptyRetryDone then
            (st1, some EMPTY_CONTENT_FALLBACK_USER)
          else
            runAgentLoop chat execTool fuel
              { st1 with
                emptyRetryDone := true
                outbound := st1.outbound ++ [EMPTY_CONTENT_FALLBACK_USER]
                messages := st1.messages ++
                  [{ role := "assistant", content := some (r.content.getD "") },
                   { role := "user", content := some EMPTY_CONTENT_RETRY_PROMPT }] }
        else
          (st1, r.content)
      else
        let msgs1 := add_assistant_message st1.messages r.content r.tool_calls
          r.reasoning_content r.thinking_blocks
        let ex := exec_tool_calls execTool msgs1 r.tool_calls
        runAgentLoop chat execTool fuel
          { st1 with
            messages := ex.1
            outbound := st1.outbound ++ [tool_call_notice r.content r.tool_calls]
            memoryToolsCalled := st1.memoryToolsCalled ++
              ex.2.filter (MEMORY_WRITE_TOOLS.contains ·) }

/-- After the loop, a `None` candidate reply becomes the generic
"processing complete" text (`_process_message`, post-loop). -/
def process_final_content (candidate : Option String) : String :=
  candidate.getD "处理已完成，但没有回复内容。"

/-! ## System-message path (loop.py `_process_system_message`) -/

/-- Split a character list at the first occurrence of `c`: `some (a, b)`
when the list is `a ++ c :: b` with `c ∉ a`, `none` when `c` never occurs.
This is Python `s.split(sep, 1)` fused with the `sep in s` test. -/
def splitFirst (c : Char) : List Char → Option (List Char × List Char)
  | [] => none
  | x :: xs =>
      if x = c then some ([], xs)
      else
        match splitFirst c xs with
        | none => none
        | some (a, b) => some (x :: a, b)

/-- Parse the origin of a `channel == "system"` inbound message from its
`chat_id` (`_process_system_message`): the part before the first `:` is the
origin channel and the rest the origin chat id (`msg.chat_id.split(":", 1)`);
without a separator, fall back to channel `"cli"` with the chat id
unchanged. -/
def parse_origin (chatId : String) : String × String :=
  match splitFirst ':' chatId.data with
  | some (a, b) => (⟨a⟩, ⟨b⟩)
  | none => ("cli", chatId)

/-- The routing decision of `_process_system_message`: the outbound
destination channel and chat id, and the session key used for persistence
(`f"{origin_channel}:{origin_chat_id}"`). -/
structure SystemRoute where
  channel : String
  chat_id : String
  session_key : String
deriving DecidableEq, Repr

/-- Resolve a system message's destination and session key from its chat id. -/
def resolve_system_route (chatId : String) : SystemRoute :=
  let o := parse_origin chatId
  { channel := o.1, chat_id := o.2, session_key := o.1 ++ ":" ++ o.2 }

/-- Loop state of `_process_system_message` (no empty-content retry flag
exists on this path). -/
structure SystemLoopState where
  messages : List ChatMessage
  outbound : List String := []
  memoryToolsCalled : List String := []
  callCount : Nat := 0
deriving DecidableEq, Repr

/-- The tool loop of `_process_system_message`: on the first response
without tool calls it breaks with `final_content = response.content`
(returned as `some content`, where `content` itself is the optional model
text); `none` models the iteration cap being reached with `final_content`
still `None`. -/
def runSystemLoop (chat : Nat → List ChatMessage → LLMResponse)
    (execTool : String → String → String) :
    Nat → SystemLoopState → SystemLoopState × Option (Option String)
  | 0, st => (st, none)
  | fuel + 1, st =>
      let r := chat st.callCount st.messages
      let st1 : SystemLoopState := { st with callCount := st.callCount + 1 }
      if r.tool_calls.isEmpty then
        (st1, some r.content)
      else
        let msgs1 := add_assistant_message st1.messages r.content r.tool_calls
          r.reasoning_content r.thinking_blocks
        let ex := exec_tool_calls execTool msgs1 r.tool_calls
        runSystemLoop chat execTool fuel
          { st1 with
            messages := ex.1
            outbound := st1.outbound ++ [tool_call_notice r.content r.tool_calls]
            memoryToolsCalled := st1.memoryToolsCalled ++
              ex.2.filter (MEMORY_WRITE_TOOLS.contains ·) }

/-- The synthetic "please continue" user message the main turn path injects
on the first empty-content occurrence (never shown to the user). -/
def retry_prompt_message : ChatMessage :=
  { role := "user", content := some EMPTY_CONTENT_RETRY_PROMPT }

/-- Post-loop reply selection of `_process_system_message`: `final_content`
still `None` (cap reached, or the break response carried `None` content)
becomes the background-task text; an empty or whitespace-only reply becomes
the fixed empty-content fallback; otherwise the reply stands. -/
def system_final_content : Option (Option String) → String
  | none => "后台任务已完成。"
  | some none => "后台任务已完成。"
  | some (some s) => if pyStrip s = "" then EMPTY_CONTENT_FALLBACK_USER else s

/-! ## Summarization (compaction.py `summarize_messages`) -/

/-- The fallback summary text returned when summarization yields nothing. -/
def summary_unavailable (n : Nat) : String :=
  "Context contained " ++ toString n ++ " messages. Summary unavailable."

/-- `summarize_messages`: with no messages, the fixed no-history text;
otherwise the summarization model call is made — `chatOutcome` is `.ok c`
when it returns content `c` and `.error ()` when it raises — and a caught
exception or a blank summary both yield the fallback text. -/
def summarize_messages (chatOutcome : Except Unit (Option String))
    (messages : List SessionMessage) : String :=
  if messages.isEmpty then "No prior history."
  else
    match chatOutcome with
    | .ok c =>
        let summary := pyStrip (c.getD "")
        if summary = "" then summary_unavailable messages.length else summary
    | .error _ => summary_unavailable messages.length

/-! ## Memory store (memory.py: daily notes) -/

/-- `MemoryStore.append_today`, the implementation behind `append_daily`:
append to the existing daily file with a newline, or create it with the
dated header. The file is its current textual content (`none` = absent). -/
def append_today (file : Option String) (content : String) (today : String) : String :=
  match file with
  | some existing => existing ++ "\n" ++ content
  | none => "# " ++ today ++ "\n\n" ++ content

/-! ## Pre-compaction memory flush (loop.py `_run_memory_flush_turn`) -/

/-- Modelled from the spec: `Session.get_history` (session/manager.py is not
among the provided sources) — "conversation history (bounded to a
configurable maximum message count, most-recent-first truncation)": the most
recent `maxMessages` session messages, in order. -/
def get_history (maxMessages : Nat) (s : Session) : List SessionMessage :=
  s.messages.drop (s.messages.length - maxMessages)

/-- A session message converted to the role/content dict sent to the model
(`{"role": m["role"], "content": m["content"]}`). -/
def session_message_to_chat (m : SessionMessage) : ChatMessage :=
  { role := m.role, content := some m.content }

/-- `MEMORY_FLUSH_SYSTEM` from compaction.py. -/
def MEMORY_FLUSH_SYSTEM : String :=
  "Pre-compaction memory flush turn. The session is near auto-compaction; " ++
  "capture durable memories to disk. Core/user-requested facts → MEMORY.md (remember_core). " ++
  "Other notes (session summaries, TODO, discussion points) → memory/YYYY-MM-DD.md (append_daily). " ++
  "You may reply, but usually " ++ NO_REPLY_TOKEN ++ " is correct if nothing to store."

/-- `MEMORY_FLUSH_PROMPT` from compaction.py. -/
def MEMORY_FLUSH_PROMPT : String :=
  "Pre-compaction memory flush. Store durable memories now " ++
  "(use remember_core for core facts, append_daily for other notes). " ++
  "If nothing to store, reply with " ++ NO_REPLY_TOKEN ++ "."

/-- State of the bounded flush loop: the flush message list, whether any
`append_daily` call was requested so far, and the model-call count. -/
structure FlushLoopState where
  messages : List ChatMessage
  appendDailyCalled : Bool := false
  callCount : Nat := 0
deriving DecidableEq, Repr

/-- The bounded tool loop inside `_run_memory_flush_turn` (fuel starts at 5):
execute requested tool calls, recording whether `append_daily` was among
them; stop at the first response without tool calls (the `NO_REPLY`
sentinel check only logs). -/
def runFlushLoop (chat : Nat → List ChatMessage → LLMResponse)
    (execTool : String → String → String) :
    Nat → FlushLoopState → FlushLoopState
  | 0, st => st
  | fuel + 1, st =>
      let r := chat st.callCount st.messages
      let st1 : FlushLoopState := { st with callCount := st.callCount + 1 }
      if r.tool_calls.isEmpty then
        st1
      else
        let msgs1 := add_assistant_message st1.messages r.content r.tool_calls
          r.reasoning_content r.thinking_blocks
        let ex := exec_tool_calls execTool msgs1 r.tool_calls
        runFlushLoop chat execTool fuel
          { st1 with
            messages := ex.1
            appendDailyCalled :=
              st1.appendDailyCalled || ex.2.any (· == "append_daily") }

/-- `t` occurs as a contiguous substring of `s`. -/
def ContainsSubstr (s t : String) : Prop :=
  ∃ a b : String, s = a ++ (t ++ b)

/-- The minimal session note the flush fallback persists
(`n = len(session.messages)` at flush time). -/
def flush_fallback_note (n : Nat) : String :=
  "Session notes: conversation reached compaction threshold (" ++ toString n ++
  " messages). Key points may be in prior compaction summary or MEMORY.md."

/-- `_run_memory_flush_turn`: build the flush message list (flush system
instruction, bounded recent history, flush user prompt), run the bounded
tool loop, and — when `append_daily` was never called and the history is
nonempty — append the minimal fallback note to today's daily file (the
storage write is modelled as succeeding). Finally record that the flush ran
for the current compaction cycle. Returns the updated session and daily
file. -/
def memory_flush_turn (chat : Nat → List ChatMessage → LLMResponse)
    (execTool : String → String → String) (maxHistory : Nat) (today : String)
    (s : Session) (daily : Option String) : Session × Option String :=
  let history := get_history maxHistory s
  let msgs := { role := "system", content := some MEMORY_FLUSH_SYSTEM : ChatMessage } ::
    (history.map session_message_to_chat ++
      [{ role := "user", content := some MEMORY_FLUSH_PROMPT }])
  let fin := runFlushLoop chat execTool 5 { messages := msgs }
  let daily1 :=
    if !fin.appendDailyCalled && !history.isEmpty then
      some (append_today daily (flush_fallback_note s.messages.length) today)
    else daily
  ({ s with memory_flush_compaction_count := s.compaction_count }, daily1)

/-! ## Compaction scheduler (loop.py `_maybe_compact_session`) -/

/-- The `AgentLoop` configuration fields read by `_maybe_compact_session`. -/
structure LoopConfig where
  compaction_enabled : Bool := true
  compaction_threshold : Nat := 60
  compaction_keep_recent : Nat := 20
  compaction_memory_flush_enabled : Bool := true
  max_history_messages : Nat := 50
deriving DecidableEq, Repr

/-- Python list slicing `l[:-k]` as used on `session.messages`:
for `k = 0` this is `l[:0] = []`, otherwise everything but the last `k`
elements (all of `l` dropped when `k ≥ len(l)`). -/
def pySliceUpToNeg (k : Nat) (l : List α) : List α :=
  if k = 0 then [] else l.take (l.length - k)

/-- Python list slicing `l[-k:]`: for `k = 0` this is `l[0:] = l`, otherwise
the last `k` elements (all of `l` when `k ≥ len(l)`). -/
def pySliceFromNeg (k : Nat) (l : List α) : List α :=
  if k = 0 then l else l.drop (l.length - k)

/-- Result of `_maybe_compact_session`: the session after the call, the
daily-notes file after the call, and — when the pre-compaction flush was
invoked — the `compaction_count` value current at that invocation. -/
structure CompactOutcome where
  session : Session
  daily : Option String
  flushedAt : Option Nat
deriving DecidableEq, Repr

/-- The pre-compaction flush step of `_maybe_compact_session`: when the
flush is enabled and no flush has run for the cycle about to close
(`memory_flush_compaction_count != compaction_count`), invoke
`_run_memory_flush_turn`; an exception there (`flushRaises`) is caught and
logged, leaving session and daily file as they were. The third component
records the `compaction_count` current at the flush invocation, `none` when
the flush was not invoked. -/
def flush_phase (cfg : LoopConfig)
    (flushChat : Nat → List ChatMessage → LLMResponse)
    (execTool : String → String → String) (today : String)
    (flushRaises : Bool) (s : Session) (daily : Option String) :
    Session × Option String × Option Nat :=
  if cfg.compaction_memory_flush_enabled &&
      s.memory_flush_compaction_count != s.compaction_count then
    if flushRaises then (s, daily, some s.compaction_count)
    else
      let r := memory_flush_turn flushChat execTool
        cfg.max_history_messages today s daily
      (r.1, r.2, some s.compaction_count)
  else (s, daily, none)

/-- The `old` list handed to the summarizer in `_maybe_compact_session`:
`messages[:-keep]`, with the prior summary prepended as a synthetic user
message when present. -/
def compaction_old (keep : Nat) (s1 : Session) : List SessionMessage :=
  let old0 := pySliceUpToNeg keep s1.messages
  match s1.compaction_summary with
  | some prior =>
      ({ role := "user", content := "Prior summary: " ++ prior } : SessionMessage) :: old0
  | none => old0

/-- The partition/summarize/trim step of `_maybe_compact_session`, applied
once the guards have passed: summarize `compaction_old` (an exception from
`summarize_messages`, `sumRaises`, is caught, and the summary is replaced
only when the result is truthy), then replace the message list by
`recent = messages[-keep:]`, increment the compaction counter and refresh
the timestamp. -/
def compact_now (keep : Nat) (sumRaises : Bool)
    (sumChat : Except Unit (Option String)) (now : Nat) (s1 : Session) : Session :=
  let recent := pySliceFromNeg keep s1.messages
  let old := compaction_old keep s1
  let s2 :=
    if sumRaises then s1
    else
      let ns := summarize_messages sumChat old
      if ns = "" then s1 else { s1 with compaction_summary := some ns }
  { s2 with
    messages := recent
    compaction_count := s2.compaction_count + 1
    updated_at := now }

/-- `_maybe_compact_session`. External nondeterminism: `flushChat`/`execTool`
drive the flush sub-loop; `flushRaises` models an exception inside
`_run_memory_flush_turn`; `sumRaises` models `summarize_messages` itself
raising (caught, keeping the summary); `sumChat` is the outcome of the
summarization model call inside `summarize_messages`; `now` is the
wall-clock timestamp. No-op unless compaction is enabled, the message count
strictly exceeds the threshold, and `keep_recent` is strictly below the
message count. -/
def maybe_compact_session (cfg : LoopConfig)
    (flushChat : Nat → List ChatMessage → LLMResponse)
    (execTool : String → String → String) (today : String)
    (flushRaises : Bool) (sumRaises : Bool)
    (sumChat : Except Unit (Option String)) (now : Nat)
    (s : Session) (daily : Option String) : CompactOutcome :=
  if !cfg.compaction_enabled then { session := s, daily := daily, flushedAt := none }
  else if s.messages.length ≤ cfg.compaction_threshold then
    { session := s, daily := daily, flushedAt := none }
  else if cfg.compaction_keep_recent ≥ s.messages.length then
    { session := s, daily := daily, flushedAt := none }
  else
    let fl := flush_phase cfg flushChat execTool today flushRaises s daily
    { session := compact_now cfg.compaction_keep_recent sumRaises sumChat now fl.1
      daily := fl.2.1
      flushedAt := fl.2.2 }

/-! ## Reading memory files (memory.py `MemoryStore.get_memory_file`)

Paths are modelled purely: a path is a flag for absoluteness plus its
components; the filesystem is a map from resolved absolute component lists
to nodes. `Path.resolve()` is modelled as lexical normalization of `.`,
`..` and empty components (symlinks are not modelled; a symlink that
escapes the memory directory is resolved by Python to its target, which
this model represents directly as the resolved component list). -/

/-- A filesystem node at a resolved path: absent, a directory, a regular
file whose read yields its text, or a regular file whose read raises (the
payload is the exception text). -/
inductive FsNode
  | missing
  | dir
  | file (text : String)
  | unreadable (err : String)
deriving DecidableEq, Repr

/-- A pathlib-style pure path: absolute flag and components. -/
structure PurePath where
  absolute : Bool
  parts : List String
deriving DecidableEq, Repr

/-- Render a path to the string used in error messages. -/
def renderPath (p : PurePath) : String :=
  (if p.absolute then "/" else "") ++ String.intercalate "/" p.parts

/-- Lexical resolution of an absolute component list: `.` and empty
components vanish, `..` pops one component (at the root it stays at the
root, as `Path.resolve` does). -/
def resolveComps (cs : List String) : List String :=
  cs.foldl
    (fun acc c =>
      if c = "." ∨ c = "" then acc
      else if c = ".." then acc.dropLast
      else acc ++ [c])
    []

/-- The absolute resolved path `get_memory_file` operates on: an absolute
input resolves as-is; the bare relative path `MEMORY.md` is redirected to
`memory/MEMORY.md` (the `p.name == "MEMORY.md" and len(p.parts) <= 1`
special case); any other relative path is joined onto the workspace. -/
def resolved_memory_path (workspace : List String) (p : PurePath) : List String :=
  if p.absolute then resolveComps p.parts
  else if p.parts = ["MEMORY.md"] then
    resolveComps (workspace ++ ["memory", "MEMORY.md"])
  else resolveComps (workspace ++ p.parts)

/-- The resolved memory directory (`self.memory_dir.resolve()`). -/
def memory_dir_resolved (workspace : List String) : List String :=
  resolveComps (workspace ++ ["memory"])

/-- Normalize a Python slice endpoint against a list length: negative
indices count from the end, and the result is clamped to `[0, len]`. -/
def pySliceIdx (len : Nat) (i : Int) : Nat :=
  if i < 0 then ((len : Int) + i).toNat else min i.toNat len

/-- The optional line-window step of `get_memory_file`: with both
`start_line` and `lines`, return `all_lines[start:end]` for
`start = max(0, start_line - 1)` and `end = min(len, start + lines)`;
with only `start_line`, the tail from `start`; otherwise the whole text. -/
def slice_lines (content : String) (start_line lines : Option Int) : String :=
  match start_line, lines with
  | some sl, some ln =>
      let allLines := content.splitOn "\n"
      let start : Int := max 0 (sl - 1)
      let stop : Int := min (allLines.length : Int) (start + ln)
      String.intercalate "\n"
        ((allLines.take (pySliceIdx allLines.length stop)).drop
          (pySliceIdx allLines.length start))
  | some sl, none =>
      let allLines := content.splitOn "\n"
      let start : Int := max 0 (sl - 1)
      String.intercalate "\n" (allLines.drop (pySliceIdx allLines.length start))
  | none, _ => content

/-- `MemoryStore.get_memory_file`: resolve the input path (with the
`MEMORY.md` shortcut), then in order — a missing path or non-file is
`File not found`, a resolved path not under the memory directory is
`Path outside memory dir`, a failing read is `Error reading`; only a
readable regular file inside the memory directory yields (a line window of)
its text. Total by construction: every failure is an error string. -/
def get_memory_file (workspace : List String) (fs : List String → FsNode)
    (path : PurePath) (start_line lines : Option Int) : String :=
  let pathStr := renderPath path
  let p := resolved_memory_path workspace path
  let memDir := memory_dir_resolved workspace
  match fs p with
  | .missing => "File not found: " ++ pathStr
  | .dir => "File not found: " ++ pathStr
  | .file text =>
      if memDir.isPrefixOf p then slice_lines text start_line lines
      else "Path outside memory dir: " ++ pathStr
  | .unreadable e =>
      if memDir.isPrefixOf p then "Error reading " ++ pathStr ++ ": " ++ e
      else "Path outside memory dir: " ++ pathStr

/-! ## Concrete instances used by witnesses and counterexamples -/

/-- A sample tool-call request. -/
def sampleToolCall : ToolCallRequest := { id := "call_1", name := "read_file", arguments := "" }

/-- A provider oracle that always requests the sample tool call. -/
def sampleToolChat : Nat → List ChatMessage → LLMResponse :=
  fun _ _ => { tool_calls := [sampleToolCall] }

/-- A provider oracle that always answers with empty content and no tool calls. -/
def sampleEmptyChat : Nat → List ChatMessage → LLMResponse :=
  fun _ _ => { content := some "" }

/-- A tool executor oracle with a fixed result. -/
def sampleExec : String → String → String := fun _ _ => "ok"

/-- A compaction configuration with `keep_recent = 0` and flush disabled. -/
def keepZeroConfig : LoopConfig :=
  { compaction_enabled := true, compaction_threshold := 1, compaction_keep_recent := 0,
    compaction_memory_flush_enabled := false, max_history_messages := 50 }

/-- A compaction configuration with `keep_recent = 0` and flush enabled. -/
def keepZeroFlushConfig : LoopConfig :=
  { compaction_enabled := true, compaction_threshold := 1, compaction_keep_recent := 0,
    compaction_memory_flush_enabled := true, max_history_messages := 50 }

/-- A small compaction configuration (`threshold = 1`, `keep_recent = 1`,
flush disabled). -/
def smallCompactionConfig : LoopConfig :=
  { compaction_enabled := true, compaction_threshold := 1, compaction_keep_recent := 1,
    compaction_memory_flush_enabled := false, max_history_messages := 50 }

/-- A two-message session. -/
def twoMessageSession : Session :=
  { messages := [{ role := "user", content := "a" }, { role := "assistant", content := "b" }] }

/-- A three-message session that already carries a compaction summary. -/
def priorSummarySession : Session :=
  { messages := [{ role := "user", content := "a" }, { role := "assistant", content := "b" },
                 { role := "user", content := "c" }]
    compaction_summary := some "S" }

/-- A two-message session whose flush marker does not match its compaction
counter, so the pre-compaction flush is due. -/
def staleFlushSession : Session :=
  { messages := [{ role := "user", content := "a" }, { role := "assistant", content := "b" }]
    compaction_count := 0
    memory_flush_compaction_count := 5 }

/-- A sample filesystem with one readable file inside the memory directory
of workspace `/home`. -/
def sampleFs : List String → FsNode :=
  fun cs => if cs = ["home", "memory", "MEMORY.md"] then .file "hello" else .missing

/-! ## Helper lemmas -/

/-- Executing tool calls appends exactly one tool-result message per request,
in request order, and reports the executed names in order. -/
theorem exec_tool_calls_eq (execTool : String → String → String)
    (msgs : List ChatMessage) (tcs : List ToolCallRequest) :
    exec_tool_calls execTool msgs tcs =
      (msgs ++ tcs.map (toolResultMessage execTool), tcs.map (·.name)) := by
  induction tcs generalizing msgs with
  | nil => simp [exec_tool_calls]
  | cons tc rest ih =>
      simp [exec_tool_calls, add_tool_result, ih, toolResultMessage]

/-- `splitFirst` finds nothing when the character does not occur. -/
theorem splitFirst_eq_none_of_not_mem (c : Char) (cs : List Char) (h : c ∉ cs) :
    splitFirst c cs = none := by
  induction cs with
  | nil => rfl
  | cons x xs ih =>
      have hx : ¬ x = c := fun hxc => h (hxc ▸ List.mem_cons_self x xs)
      have hxs : c ∉ xs := fun hm => h (List.mem_cons_of_mem x hm)
      simp [splitFirst, hx, ih hxs]

/-! ## C2 — the tool catalog used during the memory flush -/

/-- C2: in every model call of the memory-flush loop the tool catalog is
`_get_llm_tool_definitions()`; contrary to the claim, that catalog NEVER
contains a memory-writing tool, because every name in `MEMORY_WRITE_TOOLS`
is also in `TOOLS_HIDDEN_FROM_LLM` and is therefore filtered out. This
theorem evaluates the code at the failing configuration: whatever tools are
registered, no definition surviving the filter names a memory-writing tool,
so the model cannot call `remember_core`, `append_daily`, `organize_memory`
or `remember` during flush. -/
theorem flush_catalog_never_contains_memory_write_tool
    (defs : List ToolDefinition) (d : ToolDefinition) (n : String)
    (hd : d ∈ get_llm_tool_definitions defs)
    (hn : tool_name_from_definition d = some n) :
    n ∉ MEMORY_WRITE_TOOLS := by
  intro hmem
  have hin : n ∈ TOOLS_HIDDEN_FROM_LLM := by
    simp only [MEMORY_WRITE_TOOLS, List.mem_cons, List.not_mem_nil, or_false] at hmem
    rcases hmem with rfl | rfl | rfl | rfl <;> decide
  unfold get_llm_tool_definitions at hd
  rw [List.mem_filter] at hd
  have hp := hd.2
  rw [hn] at hp
  simp at hp
  exact hp hin

/-- Witness for C2 at a concrete catalog: the `read_file` definition
survives the filter, and its name is not a memory-writing tool. -/
theorem flush_catalog_never_contains_memory_write_tool_witness :
    "read_file" ∉ MEMORY_WRITE_TOOLS :=
  flush_catalog_never_contains_memory_write_tool
    [{ functionName := some "read_file" }] { functionName := some "read_file" }
    "read_file" (by decide) (by decide)

/-- One tool-handling step of the main agent loop, with its let-bound
intermediate state written out. -/
theorem runAgentLoop_tool_step (chat : Nat → List ChatMessage → LLMResponse)
    (execTool : String → String → String) (fuel : Nat) (st : TurnLoopState)
    (hne : (chat st.callCount st.messages).tool_calls.isEmpty = false) :
    runAgentLoop chat execTool (fuel + 1) st =
      runAgentLoop chat execTool fuel
        { st with
          callCount := st.callCount + 1
          messages :=
            add_assistant_message st.messages (chat st.callCount st.messages).content
                (chat st.callCount st.messages).tool_calls
                (chat st.callCount st.messages).reasoning_content
                (chat st.callCount st.messages).thinking_blocks ++
              (chat st.callCount st.messages).tool_calls.map (toolResultMessage execTool)
          outbound := st.outbound ++
            [tool_call_notice (chat st.callCount st.messages).content
              (chat st.callCount st.messages).tool_calls]
          memoryToolsCalled := st.memoryToolsCalled ++
            ((chat st.callCount st.messages).tool_calls.map (fun tc => tc.name)).filter
              (MEMORY_WRITE_TOOLS.contains ·) } := by
  simp only [runAgentLoop, hne, Bool.false_eq_true, if_false, exec_tool_calls_eq]

/-! ## C6 — tool-call round trip in the main agent loop -/

/-- C6: when a model response in `_process_message` carries tool calls, then
before the next model call (the recursive continuation of the loop) the
message list is extended by the assistant message followed by exactly one
tool-role result message per requested call, in request order, each carrying
the `tool_call_id` of its originating request. -/
theorem tool_round_trip (chat : Nat → List ChatMessage → LLMResponse)
    (execTool : String → String → String) (fuel : Nat) (st : TurnLoopState)
    (h : (chat st.callCount st.messages).tool_calls ≠ []) :
    ∃ st1 : TurnLoopState,
      runAgentLoop chat execTool (fuel + 1) st = runAgentLoop chat execTool fuel st1 ∧
      st1.messages =
        add_assistant_message st.messages (chat st.callCount st.messages).content
            (chat st.callCount st.messages).tool_calls
            (chat st.callCount st.messages).reasoning_content
            (chat st.callCount st.messages).thinking_blocks ++
          (chat st.callCount st.messages).tool_calls.map (toolResultMessage execTool) ∧
      ((chat st.callCount st.messages).tool_calls.map (toolResultMessage execTool)).length =
        (chat st.callCount st.messages).tool_calls.length ∧
      ((chat st.callCount st.messages).tool_calls.map (toolResultMessage execTool)).map
          (fun m => m.tool_call_id) =
        (chat st.callCount st.messages).tool_calls.map (fun tc => some tc.id) ∧
      ∀ m ∈ (chat st.callCount st.messages).tool_calls.map (toolResultMessage execTool),
        m.role = "tool" := by
  have hne : (chat st.callCount st.messages).tool_calls.isEmpty = false := by
    cases hcase : (chat st.callCount st.messages).tool_calls with
    | nil => exact absurd hcase h
    | cons a l => rfl
  refine ⟨_, runAgentLoop_tool_step chat execTool fuel st hne, rfl, ?_, ?_, ?_⟩
  · simp
  · simp [toolResultMessage]
  · intro m hm
    rcases List.mem_map.mp hm with ⟨tc, _, rfl⟩
    rfl

/-- Witness for C6: a concrete model response with one tool call. -/
theorem tool_round_trip_witness :
    ∃ st1 : TurnLoopState,
      runAgentLoop sampleToolChat sampleExec 1 { messages := [] } =
        runAgentLoop sampleToolChat sampleExec 0 st1 ∧
      st1.messages =
        add_assistant_message [] (sampleToolChat 0 []).content
            (sampleToolChat 0 []).tool_calls
            (sampleToolChat 0 []).reasoning_content
            (sampleToolChat 0 []).thinking_blocks ++
          (sampleToolChat 0 []).tool_calls.map (toolResultMessage sampleExec) ∧
      ((sampleToolChat 0 []).tool_calls.map (toolResultMessage sampleExec)).length =
        (sampleToolChat 0 []).tool_calls.length ∧
      ((sampleToolChat 0 []).tool_calls.map (toolResultMessage sampleExec)).map
          (fun m => m.tool_call_id) =
        (sampleToolChat 0 []).tool_calls.map (fun tc => some tc.id) ∧
      ∀ m ∈ (sampleToolChat 0 []).tool_calls.map (toolResultMessage sampleExec),
        m.role = "tool" :=
  tool_round_trip sampleToolChat sampleExec 0 { messages := [] } (by decide)

/-! ## C5 — empty-content retry cap in the main agent loop -/

/-- First empty-content occurrence in a turn: the loop publishes the
fallback notice, injects the synthetic assistant/user pair and continues. -/
theorem runAgentLoop_empty_first_step (chat : Nat → List ChatMessage → LLMResponse)
    (execTool : String → String → String) (fuel : Nat) (st : TurnLoopState)
    (hempty : (chat st.callCount st.messages).tool_calls.isEmpty = true)
    (hblank : pyStrip ((chat st.callCount st.messages).content.getD "") = "")
    (hflag : st.emptyRetryDone = false) :
    runAgentLoop chat execTool (fuel + 1) st =
      runAgentLoop chat execTool fuel
        { st with
          callCount := st.callCount + 1
          emptyRetryDone := true
          outbound := st.outbound ++ [EMPTY_CONTENT_FALLBACK_USER]
          messages := st.messages ++
            [{ role := "assistant",
               content := some ((chat st.callCount st.messages).content.getD "") },
             { role := "user", content := some EMPTY_CONTENT_RETRY_PROMPT }] } := by
  simp only [runAgentLoop, hempty, if_true, hblank, if_pos, hflag,
    Bool.false_eq_true, if_false]

/-- Second empty-content occurrence in a turn: the loop stops with the fixed
fallback text as the candidate final reply. -/
theorem runAgentLoop_empty_second_step (chat : Nat → List ChatMessage → LLMResponse)
    (execTool : String → String → String) (fuel : Nat) (st : TurnLoopState)
    (hempty : (chat st.callCount st.messages).tool_calls.isEmpty = true)
    (hblank : pyStrip ((chat st.callCount st.messages).content.getD "") = "")
    (hflag : st.emptyRetryDone = true) :
    runAgentLoop chat execTool (fuel + 1) st =
      ({ st with callCount := st.callCount + 1 }, some EMPTY_CONTENT_FALLBACK_USER) := by
  simp only [runAgentLoop, hempty, if_true, hblank, if_pos, hflag]

/-- C5: when the model always returns empty (or whitespace-only) content
with no tool calls, a turn with at least two allowed iterations makes
exactly two model calls, emits the user-visible fallback notice exactly
once, injects exactly one synthetic "please continue" user message, and
ends with the fixed fallback text as the final reply. -/
theorem empty_content_retry_cap (chat : Nat → List ChatMessage → LLMResponse)
    (execTool : String → String → String) (m0 : List ChatMessage) (maxIter : Nat)
    (hresp : ∀ i m, (chat i m).tool_calls = [] ∧ pyStrip ((chat i m).content.getD "") = "")
    (hiter : 2 ≤ maxIter) :
    process_final_content (runAgentLoop chat execTool maxIter { messages := m0 }).2 =
      EMPTY_CONTENT_FALLBACK_USER ∧
    (runAgentLoop chat execTool maxIter { messages := m0 }).1.outbound =
      [EMPTY_CONTENT_FALLBACK_USER] ∧
    (runAgentLoop chat execTool maxIter { messages := m0 }).1.messages =
      m0 ++ [{ role := "assistant", content := some ((chat 0 m0).content.getD "") },
             { role := "user", content := some EMPTY_CONTENT_RETRY_PROMPT }] ∧
    (runAgentLoop chat execTool maxIter { messages := m0 }).1.callCount = 2 := by
  obtain ⟨k, rfl⟩ : ∃ k, maxIter = k + 2 := ⟨maxIter - 2, by omega⟩
  have hempty0 : ((chat 0 m0).tool_calls).isEmpty = true := by
    rw [(hresp 0 m0).1]; rfl
  have h1 := runAgentLoop_empty_first_step chat execTool (k + 1)
    { messages := m0 } hempty0 ((hresp 0 m0).2) rfl
  rw [h1]
  set st1 : TurnLoopState :=
    { messages := m0 ++
        [{ role := "assistant", content := some ((chat 0 m0).content.getD "") },
         { role := "user", content := some EMPTY_CONTENT_RETRY_PROMPT }]
      outbound := [EMPTY_CONTENT_FALLBACK_USER]
      emptyRetryDone := true
      memoryToolsCalled := []
      callCount := 1 } with hst1
  have hempty1 : ((chat st1.callCount st1.messages).tool_calls).isEmpty = true := by
    rw [(hresp st1.callCount st1.messages).1]; rfl
  have h2 := runAgentLoop_empty_second_step chat execTool k st1 hempty1
    ((hresp st1.callCount st1.messages).2) rfl
  have : runAgentLoop chat execTool (k + 1)
      { messages := m0 ++
          [{ role := "assistant", content := some ((chat 0 m0).content.getD "") },
           { role := "user", content := some EMPTY_CONTENT_RETRY_PROMPT }]
        outbound := [] ++ [EMPTY_CONTENT_FALLBACK_USER]
        emptyRetryDone := true
        memoryToolsCalled := []
        callCount := 0 + 1 } =
      ({ st1 with callCount := st1.callCount + 1 }, some EMPTY_CONTENT_FALLBACK_USER) := by
    rw [← h2]
    congr 1
  rw [this]
  refine ⟨rfl, rfl, rfl, rfl⟩

/-- Witness for C5 with an always-empty provider and the default iteration
cap of 20. -/
theorem empty_content_retry_cap_witness :
    process_final_content (runAgentLoop sampleEmptyChat sampleExec 20 { messages := [] }).2 =
      EMPTY_CONTENT_FALLBACK_USER ∧
    (runAgentLoop sampleEmptyChat sampleExec 20 { messages := [] }).1.outbound =
      [EMPTY_CONTENT_FALLBACK_USER] ∧
    (runAgentLoop sampleEmptyChat sampleExec 20 { messages := [] }).1.messages =
      [] ++ [{ role := "assistant", content := some ((sampleEmptyChat 0 []).content.getD "") },
             { role := "user", content := some EMPTY_CONTENT_RETRY_PROMPT }] ∧
    (runAgentLoop sampleEmptyChat sampleExec 20 { messages := [] }).1.callCount = 2 :=
  empty_content_retry_cap sampleEmptyChat sampleExec [] 20
    (fun _ _ => ⟨rfl, rfl⟩) (by decide)

/-! ## C10 — empty reply on the system-message path -/

/-- The system-path loop breaks at the first response without tool calls,
taking its content as the candidate final reply. -/
theorem runSystemLoop_break (chat : Nat → List ChatMessage → LLMResponse)
    (execTool : String → String → String) (fuel : Nat) (st : SystemLoopState)
    (hempty : (chat st.callCount st.messages).tool_calls.isEmpty = true) :
    runSystemLoop chat execTool (fuel + 1) st =
      ({ st with callCount := st.callCount + 1 },
        some (chat st.callCount st.messages).content) := by
  simp only [runSystemLoop, hempty, if_true]

/-- C10: on the system-message path, a whitespace-only model reply with no
tool calls ends the loop immediately (one more model call, message list
untouched) and the fixed empty-content fallback becomes the final reply;
moreover the loop never injects the "please continue" retry message on this
path, whatever the model does. -/
theorem system_path_empty_reply_no_retry (chat : Nat → List ChatMessage → LLMResponse)
    (execTool : String → String → String) :
    (∀ (st : SystemLoopState) (s : String) (fuel : Nat),
      (chat st.callCount st.messages).tool_calls = [] →
      (chat st.callCount st.messages).content = some s →
      pyStrip s = "" →
      runSystemLoop chat execTool (fuel + 1) st =
        ({ st with callCount := st.callCount + 1 }, some (some s)) ∧
      system_final_content (runSystemLoop chat execTool (fuel + 1) st).2 =
        EMPTY_CONTENT_FALLBACK_USER) ∧
    (∀ (fuel : Nat) (st : SystemLoopState),
      ((runSystemLoop chat execTool fuel st).1.messages).count retry_prompt_message =
        st.messages.count retry_prompt_message) := by
  constructor
  · intro st s fuel hcalls hcontent hblank
    have hempty : (chat st.callCount st.messages).tool_calls.isEmpty = true := by
      rw [hcalls]; rfl
    have hbreak := runSystemLoop_break chat execTool fuel st hempty
    rw [hcontent] at hbreak
    refine ⟨hbreak, ?_⟩
    rw [hbreak]
    simp [system_final_content, hblank]
  · intro fuel
    induction fuel with
    | zero => intro st; rfl
    | succ k ih =>
        intro st
        by_cases hc : (chat st.callCount st.messages).tool_calls.isEmpty = true
        · simp only [runSystemLoop, hc, if_true]
        · have hc' : (chat st.callCount st.messages).tool_calls.isEmpty = false :=
            Bool.eq_false_iff.mpr hc
          simp only [runSystemLoop, hc', Bool.false_eq_true, if_false,
            exec_tool_calls_eq, add_assistant_message, List.append_assoc]
          rw [ih]
          simp only [List.count_append]
          have h1 : List.count retry_prompt_message
              [({ role := "assistant",
                  content := some ((chat st.callCount st.messages).content.getD ""),
                  tool_calls := (chat st.callCount st.messages).tool_calls,
                  reasoning_content :=
                    truthyStr (chat st.callCount st.messages).reasoning_content,
                  thinking_blocks :=
                    truthyStr (chat st.callCount st.messages).thinking_blocks } :
                 ChatMessage)] = 0 := by
            rw [List.count_eq_zero]
            intro hm
            exact absurd
              (show ("user" : String) = "assistant" from
                congrArg ChatMessage.role (List.mem_singleton.mp hm))
              (by decide)
          have h2 : List.count retry_prompt_message
              ((chat st.callCount st.messages).tool_calls.map
                (toolResultMessage execTool)) = 0 := by
            rw [List.count_eq_zero]
            intro hm
            rcases List.mem_map.mp hm with ⟨tc, _, heq⟩
            exact absurd
              (show ("user" : String) = "tool" from congrArg ChatMessage.role heq.symm)
              (by decide)
          rw [h1, h2]
          omega

/-- Witness for C10: a provider that always answers with whitespace-only
content breaks the system loop at once with the fallback reply, and the
retry message count stays zero. -/
theorem system_path_empty_reply_no_retry_witness :
    (runSystemLoop sampleEmptyChat sampleExec 1 { messages := [] } =
      ({ ({ messages := [] } : SystemLoopState) with callCount := 0 + 1 }, some (some "")) ∧
     system_final_content (runSystemLoop sampleEmptyChat sampleExec 1 { messages := [] }).2 =
       EMPTY_CONTENT_FALLBACK_USER) ∧
    ((runSystemLoop sampleEmptyChat sampleExec 1 { messages := [] }).1.messages).count
        retry_prompt_message =
      (({ messages := [] } : SystemLoopState)).messages.count retry_prompt_message :=
  ⟨(system_path_empty_reply_no_retry sampleEmptyChat sampleExec).1
      { messages := [] } "" 0 rfl rfl rfl,
   (system_path_empty_reply_no_retry sampleEmptyChat sampleExec).2 1 { messages := [] }⟩

/-! ## C8 — routing of system-channel messages -/

/-- C8: a system inbound message with `chat_id = "cli:42"` resolves to
outbound channel `"cli"`, chat id `"42"` and session key `"cli:42"`;
with no separator in the chat id, the channel falls back to the default
`"cli"` and the chat id is used unchanged. -/
theorem system_route_resolution :
    resolve_system_route "cli:42" =
      { channel := "cli", chat_id := "42", session_key := "cli:42" } ∧
    ∀ chatId : String, ':' ∉ chatId.data →
      resolve_system_route chatId =
        { channel := "cli", chat_id := chatId, session_key := "cli:" ++ chatId } := by
  constructor
  · decide
  · intro cid hno
    unfold resolve_system_route parse_origin
    rw [splitFirst_eq_none_of_not_mem ':' cid.data hno]
    have hcli : ("cli" ++ ":" : String) = "cli:" := by decide
    simp [hcli]

/-- Witness for C8 on a chat id with no separator. -/
theorem system_route_resolution_witness :
    resolve_system_route "42" =
      { channel := "cli", chat_id := "42", session_key := "cli:" ++ "42" } :=
  system_route_resolution.2 "42" (by decide)

/-! ## Compaction lemmas shared by C1, C3 and C4 -/

/-- The flush phase only ever touches `memory_flush_compaction_count`. -/
theorem flush_phase_spec (cfg : LoopConfig)
    (flushChat : Nat → List ChatMessage → LLMResponse)
    (execTool : String → String → String) (today : String)
    (flushRaises : Bool) (s : Session) (daily : Option String) :
    ∃ m : Nat, (flush_phase cfg flushChat execTool today flushRaises s daily).1 =
      { s with memory_flush_compaction_count := m } := by
  unfold flush_phase
  split
  · split
    · exact ⟨s.memory_flush_compaction_count, rfl⟩
    · exact ⟨s.compaction_count, rfl⟩
  · exact ⟨s.memory_flush_compaction_count, rfl⟩

/-- The trim step: messages become `messages[-keep:]`, the compaction
counter goes up by one, and the flush marker is untouched. -/
theorem compact_now_fields (keep : Nat) (sumRaises : Bool)
    (sumChat : Except Unit (Option String)) (now : Nat) (s1 : Session) :
    (compact_now keep sumRaises sumChat now s1).messages = pySliceFromNeg keep s1.messages ∧
    (compact_now keep sumRaises sumChat now s1).compaction_count = s1.compaction_count + 1 ∧
    (compact_now keep sumRaises sumChat now s1).memory_flush_compaction_count =
      s1.memory_flush_compaction_count := by
  refine ⟨rfl, ?_, ?_⟩ <;>
    · unfold compact_now
      dsimp only
      split
      · rfl
      · split <;> rfl

/-- When `summarize_messages` returns normally, the summary after the trim
step is its result whenever that result is nonempty. -/
theorem compact_now_summary (keep : Nat) (sumChat : Except Unit (Option String))
    (now : Nat) (s1 : Session)
    (hne : summarize_messages sumChat (compaction_old keep s1) ≠ "") :
    (compact_now keep false sumChat now s1).compaction_summary =
      some (summarize_messages sumChat (compaction_old keep s1)) := by
  unfold compact_now
  dsimp only
  rw [if_neg (by simp), if_neg hne]

/-- A failed summarization model call yields the fixed fallback text. -/
theorem summarize_messages_error (messages : List SessionMessage) :
    summarize_messages (Except.error ()) messages =
      if messages.isEmpty then "No prior history." else summary_unavailable messages.length := by
  unfold summarize_messages
  split <;> rfl

/-- The fallback summary text is never empty. -/
theorem summary_unavailable_ne_empty (n : Nat) : summary_unavailable n ≠ "" := by
  intro h
  unfold summary_unavailable at h
  have hl := congrArg String.length h
  rw [String.length_append, String.length_append] at hl
  have h18 : ("Context contained " : String).length = 18 := by decide
  have h0 : ("" : String).length = 0 := by decide
  omega

/-- With the three firing guards satisfied, `_maybe_compact_session` runs
the flush phase followed by the trim step. -/
theorem maybe_compact_fired (cfg : LoopConfig)
    (flushChat : Nat → List ChatMessage → LLMResponse)
    (execTool : String → String → String) (today : String)
    (flushRaises sumRaises : Bool) (sumChat : Except Unit (Option String)) (now : Nat)
    (s : Session) (daily : Option String)
    (hen : cfg.compaction_enabled = true)
    (hth : cfg.compaction_threshold < s.messages.length)
    (hkeep : cfg.compaction_keep_recent < s.messages.length) :
    maybe_compact_session cfg flushChat execTool today flushRaises sumRaises sumChat now
        s daily =
      { session := compact_now cfg.compaction_keep_recent sumRaises sumChat now
          (flush_phase cfg flushChat execTool today flushRaises s daily).1
        daily := (flush_phase cfg flushChat execTool today flushRaises s daily).2.1
        flushedAt := (flush_phase cfg flushChat execTool today flushRaises s daily).2.2 } := by
  unfold maybe_compact_session
  rw [if_neg (by simp [hen]), if_neg (by omega), if_neg (by omega)]

/-! ## C1 — the summary is NOT kept unchanged when summarization fails -/

/-- Counterexample to C1 as stated: a session with prior summary `"S"`,
compaction firing, and the summarization model call failing. The previous
summary is not kept: it is overwritten with the fallback text produced by
`summarize_messages` (the trim and the counter increment do happen). -/
theorem summary_replaced_on_failure_counterexample :
    (smallCompactionConfig.compaction_enabled = true ∧
     smallCompactionConfig.compaction_threshold < priorSummarySession.messages.length ∧
     smallCompactionConfig.compaction_keep_recent < priorSummarySession.messages.length) ∧
    priorSummarySession.compaction_summary = some "S" ∧
    (maybe_compact_session smallCompactionConfig sampleEmptyChat sampleExec "2026-10-12"
        false false (Except.error ()) 1 priorSummarySession none).session.compaction_summary ≠
      some "S" ∧
    (maybe_compact_session smallCompactionConfig sampleEmptyChat sampleExec "2026-10-12"
        false false (Except.error ()) 1 priorSummarySession none).session.compaction_summary =
      some (summary_unavailable 3) := by
  decide

/-- C1 amended: when the summarization model call fails (raises inside
`summarize_messages`), the caught failure produces the fallback text
`summary_unavailable`, which then REPLACES `compaction_summary` (the prior
summary is kept only if `summarize_messages` itself were to raise); the trim
to the most recent `keep_recent` messages and the `compaction_count`
increment still proceed. -/
theorem compaction_failure_sets_fallback_summary (cfg : LoopConfig)
    (flushChat : Nat → List ChatMessage → LLMResponse)
    (execTool : String → String → String) (today : String)
    (flushRaises : Bool) (now : Nat) (s : Session) (daily : Option String)
    (hen : cfg.compaction_enabled = true)
    (hth : cfg.compaction_threshold < s.messages.length)
    (hkeep : cfg.compaction_keep_recent < s.messages.length) :
    (maybe_compact_session cfg flushChat execTool today flushRaises false (Except.error ())
        now s daily).session.compaction_summary =
      some (if (compaction_old cfg.compaction_keep_recent s).isEmpty then "No prior history."
            else summary_unavailable (compaction_old cfg.compaction_keep_recent s).length) ∧
    (maybe_compact_session cfg flushChat execTool today flushRaises false (Except.error ())
        now s daily).session.messages =
      pySliceFromNeg cfg.compaction_keep_recent s.messages ∧
    (maybe_compact_session cfg flushChat execTool today flushRaises false (Except.error ())
        now s daily).session.compaction_count = s.compaction_count + 1 := by
  rw [maybe_compact_fired cfg flushChat execTool today flushRaises false (Except.error ())
    now s daily hen hth hkeep]
  obtain ⟨m, hm⟩ := flush_phase_spec cfg flushChat execTool today flushRaises s daily
  rw [hm]
  have hold : compaction_old cfg.compaction_keep_recent
      { s with memory_flush_compaction_count := m } =
      compaction_old cfg.compaction_keep_recent s := rfl
  have hne : summarize_messages (Except.error ())
      (compaction_old cfg.compaction_keep_recent
        { s with memory_flush_compaction_count := m }) ≠ "" := by
    rw [hold, summarize_messages_error]
    split
    · decide
    · exact summary_unavailable_ne_empty _
  refine ⟨?_, ?_, ?_⟩
  · rw [compact_now_summary _ _ _ _ hne, hold, summarize_messages_error]
  · exact (compact_now_fields _ _ _ _ _).1
  · exact (compact_now_fields _ _ _ _ _).2.1

/-- Witness for the amended C1 at a concrete session with a prior summary. -/
theorem summary_fallback_witness :
    (maybe_compact_session smallCompactionConfig sampleEmptyChat sampleExec "2026-10-12"
        false false (Except.error ()) 1 priorSummarySession none).session.compaction_summary =
      some (if (compaction_old smallCompactionConfig.compaction_keep_recent
                priorSummarySession).isEmpty then "No prior history."
            else summary_unavailable (compaction_old
                smallCompactionConfig.compaction_keep_recent priorSummarySession).length) ∧
    (maybe_compact_session smallCompactionConfig sampleEmptyChat sampleExec "2026-10-12"
        false false (Except.error ()) 1 priorSummarySession none).session.messages =
      pySliceFromNeg smallCompactionConfig.compaction_keep_recent
        priorSummarySession.messages ∧
    (maybe_compact_session smallCompactionConfig sampleEmptyChat sampleExec "2026-10-12"
        false false (Except.error ()) 1 priorSummarySession none).session.compaction_count =
      priorSummarySession.compaction_count + 1 :=
  compaction_failure_sets_fallback_summary smallCompactionConfig sampleEmptyChat sampleExec
    "2026-10-12" false 1 priorSummarySession none rfl (by decide) (by decide)

/-! ## C3 — trim length and counter increment when compaction fires -/

/-- Counterexample to C3 as stated: with `keep_recent = 0` all three firing
conditions hold, yet because Python `messages[:-0]` is empty and
`messages[-0:]` is the whole list, the message list is left untouched (its
length is 2, not `keep_recent = 0`), although `compaction_count` still goes
up by one. -/
theorem compaction_keep_zero_counterexample :
    (keepZeroConfig.compaction_enabled = true ∧
     keepZeroConfig.compaction_threshold < twoMessageSession.messages.length ∧
     keepZeroConfig.compaction_keep_recent < twoMessageSession.messages.length) ∧
    (maybe_compact_session keepZeroConfig sampleEmptyChat sampleExec "2026-10-12"
        false false (Except.ok (some "SUM")) 1 twoMessageSession
        none).session.messages.length ≠ keepZeroConfig.compaction_keep_recent ∧
    (maybe_compact_session keepZeroConfig sampleEmptyChat sampleExec "2026-10-12"
        false false (Except.ok (some "SUM")) 1 twoMessageSession none).session.messages =
      twoMessageSession.messages ∧
    (maybe_compact_session keepZeroConfig sampleEmptyChat sampleExec "2026-10-12"
        false false (Except.ok (some "SUM")) 1 twoMessageSession
        none).session.compaction_count = twoMessageSession.compaction_count + 1 := by
  decide

/-- C3 amended: when compaction fires AND `keep_recent ≥ 1`, the session's
message list afterwards equals the last `keep_recent` messages of the prior
list (so its length is exactly `keep_recent`) and `compaction_count` has
increased by exactly 1. (For `keep_recent = 0` the counter still increments
but the list is left whole, per the counterexample.) -/
theorem compaction_trims_to_keep_recent (cfg : LoopConfig)
    (flushChat : Nat → List ChatMessage → LLMResponse)
    (execTool : String → String → String) (today : String)
    (flushRaises sumRaises : Bool) (sumChat : Except Unit (Option String)) (now : Nat)
    (s : Session) (daily : Option String)
    (hen : cfg.compaction_enabled = true)
    (hth : cfg.compaction_threshold < s.messages.length)
    (hkeep : cfg.compaction_keep_recent < s.messages.length)
    (hpos : 1 ≤ cfg.compaction_keep_recent) :
    (maybe_compact_session cfg flushChat execTool today flushRaises sumRaises sumChat now
        s daily).session.messages =
      s.messages.drop (s.messages.length - cfg.compaction_keep_recent) ∧
    (maybe_compact_session cfg flushChat execTool today flushRaises sumRaises sumChat now
        s daily).session.messages.length = cfg.compaction_keep_recent ∧
    (maybe_compact_session cfg flushChat execTool today flushRaises sumRaises sumChat now
        s daily).session.compaction_count = s.compaction_count + 1 := by
  rw [maybe_compact_fired cfg flushChat execTool today flushRaises sumRaises sumChat
    now s daily hen hth hkeep]
  obtain ⟨m, hm⟩ := flush_phase_spec cfg flushChat execTool today flushRaises s daily
  rw [hm]
  have hmsg : (compact_now cfg.compaction_keep_recent sumRaises sumChat now
      { s with memory_flush_compaction_count := m }).messages =
      s.messages.drop (s.messages.length - cfg.compaction_keep_recent) := by
    rw [(compact_now_fields _ _ _ _ _).1]
    unfold pySliceFromNeg
    rw [if_neg (by omega)]
  refine ⟨hmsg, ?_, (compact_now_fields _ _ _ _ _).2.1⟩
  rw [hmsg, List.length_drop]
  omega

/-- Witness for the amended C3: threshold 1, keep_recent 1, three messages. -/
theorem compaction_trims_witness :
    (maybe_compact_session smallCompactionConfig sampleEmptyChat sampleExec "2026-10-12"
        false false (Except.ok (some "SUM")) 1 priorSummarySession none).session.messages =
      priorSummarySession.messages.drop
        (priorSummarySession.messages.length -
          smallCompactionConfig.compaction_keep_recent) ∧
    (maybe_compact_session smallCompactionConfig sampleEmptyChat sampleExec "2026-10-12"
        false false (Except.ok (some "SUM")) 1
        priorSummarySession none).session.messages.length =
      smallCompactionConfig.compaction_keep_recent ∧
    (maybe_compact_session smallCompactionConfig sampleEmptyChat sampleExec "2026-10-12"
        false false (Except.ok (some "SUM")) 1
        priorSummarySession none).session.compaction_count =
      priorSummarySession.compaction_count + 1 :=
  compaction_trims_to_keep_recent smallCompactionConfig sampleEmptyChat sampleExec
    "2026-10-12" false false (Except.ok (some "SUM")) 1 priorSummarySession none
    rfl (by decide) (by decide) (by decide)

/-! ## C7 — the flush fallback persists a dated note -/

/-- String concatenation is associative. -/
theorem string_append_assoc (a b c : String) : (a ++ b) ++ c = a ++ (b ++ c) := by
  apply String.ext
  simp [String.data_append]

/-- If the model never requests `append_daily`, the flush loop never sets
the `append_daily_called` flag. -/
theorem runFlushLoop_no_append_daily (chat : Nat → List ChatMessage → LLMResponse)
    (execTool : String → String → String)
    (hno : ∀ i m, ∀ tc ∈ (chat i m).tool_calls, tc.name ≠ "append_daily") :
    ∀ (fuel : Nat) (st : FlushLoopState), st.appendDailyCalled = false →
      (runFlushLoop chat execTool fuel st).appendDailyCalled = false := by
  intro fuel
  induction fuel with
  | zero => intro st hst; exact hst
  | succ k ih =>
      intro st hst
      by_cases hc : (chat st.callCount st.messages).tool_calls.isEmpty = true
      · simp only [runFlushLoop, hc, if_true]
        exact hst
      · have hc' : (chat st.callCount st.messages).tool_calls.isEmpty = false :=
          Bool.eq_false_iff.mpr hc
        simp only [runFlushLoop, hc', Bool.false_eq_true, if_false, exec_tool_calls_eq]
        apply ih
        dsimp only
        rw [hst, Bool.false_or, List.any_eq_false]
        rintro x hx
        rcases List.mem_map.mp hx with ⟨tc, htc, rfl⟩
        simp only [beq_iff_eq]
        exact hno st.callCount st.messages tc htc

/-- The fallback note decomposes around the phrase `compaction threshold`. -/
theorem flush_fallback_note_decomp_phrase (n : Nat) :
    flush_fallback_note n =
      "Session notes: conversation reached " ++
        ("compaction threshold" ++
          (" (" ++ (toString n ++
            " messages). Key points may be in prior compaction summary or MEMORY.md."))) := by
  unfold flush_fallback_note
  rw [string_append_assoc]
  have h1 : ("Session notes: conversation reached compaction threshold (" : String) =
      "Session notes: conversation reached " ++ ("compaction threshold" ++ " (") := by decide
  rw [h1, string_append_assoc, string_append_assoc]

/-- The fallback note decomposes around the message count. -/
theorem flush_fallback_note_decomp_count (n : Nat) :
    flush_fallback_note n =
      "Session notes: conversation reached compaction threshold (" ++
        ((toString n ++ " messages") ++
          "). Key points may be in prior compaction summary or MEMORY.md.") := by
  unfold flush_fallback_note
  have h1 : (" messages). Key points may be in prior compaction summary or MEMORY.md." : String) =
      " messages" ++ "). Key points may be in prior compaction summary or MEMORY.md." := by
    decide
  rw [h1, string_append_assoc, ← string_append_assoc (toString n)]

/-- C7: for a session with at least one message (and a positive history
bound), when the flush loop completes without the model ever calling
`append_daily`, the flush persists a dated daily note whose text contains
the phrase `compaction threshold` and the session's message count. -/
theorem flush_fallback_persists_dated_note
    (chat : Nat → List ChatMessage → LLMResponse)
    (execTool : String → String → String) (maxHistory : Nat) (today : String)
    (s : Session) (daily : Option String)
    (hno : ∀ i m, ∀ tc ∈ (chat i m).tool_calls, tc.name ≠ "append_daily")
    (hmsg : s.messages ≠ [])
    (hmax : 1 ≤ maxHistory) :
    ∃ f, (memory_flush_turn chat execTool maxHistory today s daily).2 = some f ∧
      ContainsSubstr f "compaction threshold" ∧
      ContainsSubstr f (toString s.messages.length ++ " messages") := by
  have hlen : 1 ≤ s.messages.length := List.length_pos.mpr hmsg
  have hflag := runFlushLoop_no_append_daily chat execTool hno 5
    { messages := ({ role := "system", content := some MEMORY_FLUSH_SYSTEM : ChatMessage } ::
        ((get_history maxHistory s).map session_message_to_chat ++
          [{ role := "user", content := some MEMORY_FLUSH_PROMPT }])) } rfl
  have hhist : (get_history maxHistory s).isEmpty = false := by
    have : 1 ≤ (get_history maxHistory s).length := by
      unfold get_history
      rw [List.length_drop]
      omega
    cases hcase : get_history maxHistory s with
    | nil => rw [hcase] at this; simp at this
    | cons a l => rfl
  simp only [memory_flush_turn]
  rw [hflag, hhist]
  simp only [Bool.not_false, Bool.and_self, reduceIte]
  refine ⟨_, rfl, ?_, ?_⟩
  · rcases daily with _ | e
    · refine ⟨"# " ++ today ++ "\n\n" ++ "Session notes: conversation reached ",
        " (" ++ (toString s.messages.length ++
          " messages). Key points may be in prior compaction summary or MEMORY.md."), ?_⟩
      simp only [append_today, flush_fallback_note_decomp_phrase, string_append_assoc]
    · refine ⟨e ++ "\n" ++ "Session notes: conversation reached ",
        " (" ++ (toString s.messages.length ++
          " messages). Key points may be in prior compaction summary or MEMORY.md."), ?_⟩
      simp only [append_today, flush_fallback_note_decomp_phrase, string_append_assoc]
  · rcases daily with _ | e
    · refine ⟨"# " ++ today ++ "\n\n" ++
          "Session notes: conversation reached compaction threshold (",
        "). Key points may be in prior compaction summary or MEMORY.md.", ?_⟩
      simp only [append_today, flush_fallback_note_decomp_count, string_append_assoc]
    · refine ⟨e ++ "\n" ++
          "Session notes: conversation reached compaction threshold (",
        "). Key points may be in prior compaction summary or MEMORY.md.", ?_⟩
      simp only [append_today, flush_fallback_note_decomp_count, string_append_assoc]

/-- Witness for C7: a model that always replies `NO_REPLY` (no tool calls)
on a two-message session with no daily file yet. -/
theorem flush_fallback_persists_dated_note_witness :
    ∃ f, (memory_flush_turn sampleEmptyChat sampleExec 50 "2026-10-12"
        twoMessageSession none).2 = some f ∧
      ContainsSubstr f "compaction threshold" ∧
      ContainsSubstr f (toString twoMessageSession.messages.length ++ " messages") :=
  flush_fallback_persists_dated_note sampleEmptyChat sampleExec 50 "2026-10-12"
    twoMessageSession none (fun _ _ tc htc => by simp [sampleEmptyChat] at htc)
    (by decide) (by decide)

/-! ## C4 — the flush runs at most once per compaction cycle -/

/-- When the flush was invoked, it was invoked at the entry value of
`compaction_count`, and the call incremented `compaction_count`. -/
theorem maybe_compact_flushedAt (cfg : LoopConfig)
    (flushChat : Nat → List ChatMessage → LLMResponse)
    (execTool : String → String → String) (today : String)
    (flushRaises sumRaises : Bool) (sumChat : Except Unit (Option String)) (now : Nat)
    (s : Session) (daily : Option String) (c : Nat)
    (h : (maybe_compact_session cfg flushChat execTool today flushRaises sumRaises sumChat
        now s daily).flushedAt = some c) :
    c = s.compaction_count ∧
    (maybe_compact_session cfg flushChat execTool today flushRaises sumRaises sumChat now
        s daily).session.compaction_count = s.compaction_count + 1 := by
  unfold maybe_compact_session at h ⊢
  split at h
  · exact absurd h (by simp)
  split at h
  · exact absurd h (by simp)
  split at h
  · exact absurd h (by simp)
  constructor
  · dsimp only at h
    unfold flush_phase at h
    split at h
    · split at h
      · exact (Option.some_inj.mp h).symm
      · exact (Option.some_inj.mp h).symm
    · exact absurd h (by simp)
  · rw [if_neg (by assumption), if_neg (by assumption), if_neg (by assumption)]
    dsimp only
    obtain ⟨m, hm⟩ := flush_phase_spec cfg flushChat execTool today flushRaises s daily
    rw [hm, (compact_now_fields _ _ _ _ _).2.1]

/-- C4: two successive `maybe_compact` calls with no messages added in
between never invoke the memory flush for the same `compaction_count`
value — the flush runs at most once per compaction cycle. -/
theorem flush_at_most_once_per_cycle (cfg : LoopConfig)
    (fc1 fc2 : Nat → List ChatMessage → LLMResponse)
    (et1 et2 : String → String → String) (td1 td2 : String)
    (fr1 fr2 sr1 sr2 : Bool) (sc1 sc2 : Except Unit (Option String)) (now1 now2 : Nat)
    (s : Session) (daily : Option String) (c1 c2 : Nat)
    (h1 : (maybe_compact_session cfg fc1 et1 td1 fr1 sr1 sc1 now1 s daily).flushedAt =
      some c1)
    (h2 : (maybe_compact_session cfg fc2 et2 td2 fr2 sr2 sc2 now2
        (maybe_compact_session cfg fc1 et1 td1 fr1 sr1 sc1 now1 s daily).session
        (maybe_compact_session cfg fc1 et1 td1 fr1 sr1 sc1 now1 s daily).daily).flushedAt =
      some c2) :
    c1 ≠ c2 := by
  obtain ⟨hc1, hcount⟩ :=
    maybe_compact_flushedAt cfg fc1 et1 td1 fr1 sr1 sc1 now1 s daily c1 h1
  obtain ⟨hc2, _⟩ :=
    maybe_compact_flushedAt cfg fc2 et2 td2 fr2 sr2 sc2 now2 _ _ c2 h2
  omega

/-! ## C9 — `get_memory_file` is total and confines reads to the memory dir -/

/-- C9: `get_memory_file` (total by construction — every outcome below is a
plain string) returns (a line window of) the file's text exactly when the
resolved path is an existing readable regular file inside the resolved
memory directory; a missing path or a directory yields the `File not found`
string, a resolved path outside the memory directory (absolute or reached
by `..` traversal) yields the `Path outside memory dir` string, and a
failing read yields the `Error reading` string. -/
theorem get_memory_file_safe (workspace : List String) (fs : List String → FsNode)
    (path : PurePath) (start_line lines : Option Int) :
    (∀ text, fs (resolved_memory_path workspace path) = .file text →
      (memory_dir_resolved workspace).isPrefixOf (resolved_memory_path workspace path) =
        true →
      get_memory_file workspace fs path start_line lines =
        slice_lines text start_line lines) ∧
    ((memory_dir_resolved workspace).isPrefixOf (resolved_memory_path workspace path) =
        false →
      get_memory_file workspace fs path start_line lines =
          "File not found: " ++ renderPath path ∨
      get_memory_file workspace fs path start_line lines =
          "Path outside memory dir: " ++ renderPath path) ∧
    (fs (resolved_memory_path workspace path) = .missing ∨
        fs (resolved_memory_path workspace path) = .dir →
      get_memory_file workspace fs path start_line lines =
        "File not found: " ++ renderPath path) ∧
    (∀ e, fs (resolved_memory_path workspace path) = .unreadable e →
      (memory_dir_resolved workspace).isPrefixOf (resolved_memory_path workspace path) =
        true →
      get_memory_file workspace fs path start_line lines =
        "Error reading " ++ renderPath path ++ ": " ++ e) := by
  refine ⟨?_, ?_, ?_, ?_⟩
  · intro text hfs hpre
    simp only [get_memory_file, hfs, hpre, if_true]
  · intro hpre
    simp only [get_memory_file, hpre]
    cases hfs : fs (resolved_memory_path workspace path) with
    | missing => exact Or.inl rfl
    | dir => exact Or.inl rfl
    | file text => simp
    | unreadable e => simp
  · rintro (hfs | hfs) <;> simp only [get_memory_file, hfs]
  · intro e hfs hpre
    simp only [get_memory_file, hfs, hpre, if_true]

/-- Witness for C9: the workspace-relative path `memory/MEMORY.md` reads the
file, and the `..`-traversal path `memory/../../etc/passwd` resolves outside
the memory directory and yields an error string. -/
theorem get_memory_file_safe_witness :
    get_memory_file ["home"] sampleFs ⟨false, ["memory", "MEMORY.md"]⟩ none none =
      slice_lines "hello" none none ∧
    (get_memory_file ["home"] sampleFs
        ⟨false, ["memory", "..", "..", "etc", "passwd"]⟩ none none =
        "File not found: " ++ renderPath ⟨false, ["memory", "..", "..", "etc", "passwd"]⟩ ∨
     get_memory_file ["home"] sampleFs
        ⟨false, ["memory", "..", "..", "etc", "passwd"]⟩ none none =
        "Path outside memory dir: " ++
          renderPath ⟨false, ["memory", "..", "..", "etc", "passwd"]⟩) :=
  ⟨(get_memory_file_safe ["home"] sampleFs ⟨false, ["memory", "MEMORY.md"]⟩ none none).1
      "hello" (by decide) (by decide),
   (get_memory_file_safe ["home"] sampleFs
      ⟨false, ["memory", "..", "..", "etc", "passwd"]⟩ none none).2.1 (by decide)⟩

/-- Witness for C4: a `keep_recent = 0` configuration makes both successive
calls fire (the message list is never trimmed), and both invoke the flush —
at the distinct `compaction_count` values 0 and 1. -/
theorem flush_at_most_once_per_cycle_witness :
    (maybe_compact_session keepZeroFlushConfig sampleEmptyChat sampleExec "2026-10-12"
        true false (Except.ok (some "SUM")) 1 staleFlushSession none).flushedAt = some 0 ∧
    (maybe_compact_session keepZeroFlushConfig sampleEmptyChat sampleExec "2026-10-12"
        true false (Except.ok (some "SUM")) 2
        (maybe_compact_session keepZeroFlushConfig sampleEmptyChat sampleExec "2026-10-12"
          true false (Except.ok (some "SUM")) 1 staleFlushSession none).session
        (maybe_compact_session keepZeroFlushConfig sampleEmptyChat sampleExec "2026-10-12"
          true false (Except.ok (some "SUM")) 1 staleFlushSession none).daily).flushedAt =
      some 1 ∧
    (0 : Nat) ≠ 1 :=
  ⟨by decide, by decide,
    flush_at_most_once_per_cycle keepZeroFlushConfig sampleEmptyChat sampleEmptyChat
      sampleExec sampleExec "2026-10-12" "2026-10-12" true true false false
      (Except.ok (some "SUM")) (Except.ok (some "SUM")) 1 2 staleFlushSession none 0 1
      (by decide) (by decide)⟩

end Nanobot
